import Mathlib

/-!
Shallow embedding of the seabird-nwwsio-plugin core: the subscription store
(`subscriptions.go`), the WMO/AWIPS/CAP decoders (`internal/nwwsio.go`, the CAP
file) and the dispatcher (`handleMessage` and friends in the client package).

Go strings are modelled as Lean `String`s; `strings.ToLower`, `strings.ToUpper`
and `strings.TrimSpace` are modelled character-wise (`goLower`, `goUpper`,
`goTrim`), and `strings.Contains` as an explicit substring search (`goContains`).
Go maps are modelled as association lists (`lookupA` / `setA`); mutexes,
logging, timestamps and the network/file-system side effects are elided, since
the claims are about the pure data transformations.
-/

namespace NWWS

/-! ### Go string primitives -/

/-- Model of Go `strings.ToLower` (character-wise, ASCII). -/
def goLower (s : String) : String :=
  (s.data.map Char.toLower).asString

/-- Model of Go `strings.ToUpper` (character-wise, ASCII). -/
def goUpper (s : String) : String :=
  (s.data.map Char.toUpper).asString

def wsChar (c : Char) : Bool := c.isWhitespace

/-- Trim whitespace from both ends of a character list. -/
def trimList (l : List Char) : List Char :=
  ((l.dropWhile wsChar).reverse.dropWhile wsChar).reverse

/-- Model of Go `strings.TrimSpace`. -/
def goTrim (s : String) : String :=
  (trimList s.data).asString

/-- Does `l` start with `p`? -/
def startsWith : List Char → List Char → Bool
  | _, [] => true
  | [], _ :: _ => false
  | a :: as, b :: bs => a = b && startsWith as bs

/-- Does `p` occur as a contiguous substring of `l`? -/
def hasSub : List Char → List Char → Bool
  | [], p => p.isEmpty
  | a :: t, p => startsWith (a :: t) p || hasSub t p

/-- Model of Go `strings.Contains`. -/
def goContains (s pat : String) : Bool :=
  hasSub s.data pat.data

/-! ### Association lists modelling Go maps -/

/-- First value stored under key `k`, if any (Go map read). -/
def lookupA {α : Type} : List (String × α) → String → Option α
  | [], _ => none
  | (k', v) :: t, k => if k' = k then some v else lookupA t k

/-- Store `v` under key `k` (Go map write): replace in place, else append. -/
def setA {α : Type} : List (String × α) → String → α → List (String × α)
  | [], k, v => [(k, v)]
  | (k', v') :: t, k, v => if k' = k then (k, v) :: t else (k', v') :: setA t k v

/-- The keys of the association list are pairwise distinct (Go map invariant). -/
def keysNodup {α : Type} (m : List (String × α)) : Prop :=
  (m.map Prod.fst).Nodup

/-! ### Subscription store data (`subscriptions.go`) -/

/-- `RecentMessage` from `subscriptions.go` (the wall-clock `Timestamp` field is
elided: no claim mentions it). -/
structure RecentMessage where
  Station : String
  DataType : String
  AwipsID : String
  Issue : String
  Text : String
deriving DecidableEq, Repr

/-- `Subscription` from `subscriptions.go`. -/
structure Subscription where
  UserID : String
  Filters : List String
deriving DecidableEq, Repr

/-- `MaxRecentMessages` from the client package constants. -/
def maxRecentMessages : Nat := 5

/-- Filter normalization inside `SubscribeToStation`: default empty input to
`["cap"]`, then lowercase every filter. -/
def normalizeFilters (filters : List String) : List String :=
  (if filters.isEmpty then ["cap"] else filters).map goLower

/-- The in-place removal loop of `SubscribeToStation`: drop the first
subscription of `userID` (the Go loop `break`s after one removal). -/
def removeUser : List Subscription → String → List Subscription
  | [], _ => []
  | s :: rest, u => if s.UserID = u then rest else s :: removeUser rest u

/-- `SubscribeToStation`: uppercase the station, normalize filters, remove any
prior entry for the user, append the new entry. -/
def subscribeToStation (m : List (String × List Subscription))
    (userID stationCode : String) (filters : List String) :
    List (String × List Subscription) :=
  let sc := goUpper stationCode
  let subs := (lookupA m sc).getD []
  setA m sc (removeUser subs userID ++ [⟨userID, normalizeFilters filters⟩])

/-- `GetStationSubscriptions`: read-only snapshot for an uppercased station. -/
def getStationSubscriptions (m : List (String × List Subscription))
    (stationCode : String) : List Subscription :=
  (lookupA m (goUpper stationCode)).getD []

/-- `GetUserStationSubscriptions`: the stations having a subscription of
`userID` (one occurrence per station: the Go loop `break`s per station). -/
def getUserStationSubscriptions (m : List (String × List Subscription))
    (userID : String) : List String :=
  (m.filter (fun p => p.2.any (fun s => s.UserID = userID))).map Prod.fst

/-- `AddRecentMessage`: append to the station's list, dropping the head when
the list would exceed `MaxRecentMessages`. -/
def addRecentMessage (m : List (String × List RecentMessage))
    (msg : RecentMessage) : List (String × List RecentMessage) :=
  let station := goUpper msg.Station
  let messages := (lookupA m station).getD [] ++ [msg]
  let messages := if messages.length > maxRecentMessages then messages.tail else messages
  setA m station messages

/-- `GetRecentMessages`: read-only snapshot, oldest first. -/
def getRecentMessages (m : List (String × List RecentMessage))
    (stationCode : String) : List RecentMessage :=
  (lookupA m (goUpper stationCode)).getD []

/-! ### Sequence-gap tracking (`checkSequenceGaps`) -/

/-- One detected gap, as logged by `checkSequenceGaps`. -/
structure SeqGap where
  processID : String
  expected : Int
  received : Int
  missed : Int
deriving DecidableEq, Repr

/-- `checkSequenceGaps`: compare against the last counter for the origin,
report a gap when the delta is not exactly 1, always update the tracker. -/
def checkSequenceGaps (lastSequence : List (String × Int)) (processID : String)
    (sequenceID : Int) : List (String × Int) × Option SeqGap :=
  let gap :=
    match lookupA lastSequence processID with
    | some lastSeq =>
        let expected := lastSeq + 1
        if sequenceID ≠ expected then
          some ⟨processID, expected, sequenceID, sequenceID - expected⟩
        else none
    | none => none
  (setA lastSequence processID sequenceID, gap)

/-- Feed a list of counters for one origin through `checkSequenceGaps`,
collecting the reported gaps in order. -/
def runSequence : List (String × Int) → String → List Int →
    List (String × Int) × List SeqGap
  | st, _, [] => (st, [])
  | st, pid, s :: rest =>
      let r := checkSequenceGaps st pid s
      let r2 := runSequence r.1 pid rest
      (r2.1, r.2.toList ++ r2.2)

/-! ### WMO product identifiers (`internal/nwwsio.go`) -/

/-- `DataEntry` from `internal/nwwsio.go` (priorities as their numeric levels). -/
structure DataEntry where
  T1 : String
  DataType : String
  T2 : String
  A1 : String
  A2 : String
  II : String
  Priority : List Nat
deriving DecidableEq, Repr

/-- `DataTable` from `internal/nwwsio.go` (WMO table 1). -/
def DataTable : List DataEntry := [
  ⟨"A", "Analyses", "B1", "C1", "C1", "**", [3]⟩,
  ⟨"B", "Addressed message", "***", "***", "***", "***", [1, 2, 4]⟩,
  ⟨"C", "Climatic data", "B1", "C1", "C1", "**", [4]⟩,
  ⟨"D", "Grid point information (GRID)", "B2", "C3", "C4", "D2", [3]⟩,
  ⟨"E", "Satellite imagery", "B5", "C1", "C1", "**", [3]⟩,
  ⟨"F", "Forecast", "B1", "C1", "C1", "**", [3]⟩,
  ⟨"G", "Grid point information (GRID)", "B2", "C3", "C4", "D2", [3]⟩,
  ⟨"H", "Grid point information (GRIB)", "B2", "C3", "C4", "D2", [3]⟩,
  ⟨"I", "Observational data (Binary coded) - BUFR", "B3", "C6", "C3", "**", [2]⟩,
  ⟨"J", "Forecast information (Binary coded) - BUFR", "B3", "C6", "C4", "D2", [3]⟩,
  ⟨"K", "CREX", "C7", "C7", "C3", "**", [2]⟩,
  ⟨"L", "Aviation information in XML", "B7", "C1", "C1", "*", [1, 2, 3]⟩,
  ⟨"M", "-", "", "", "", "", []⟩,
  ⟨"N", "Notices", "B1", "C1", "C1", "**", [4]⟩,
  ⟨"O", "Oceanographic information (GRIB)", "B4", "C3", "C4", "D1", [3]⟩,
  ⟨"P", "Pictorial information (Binary coded)", "B6", "C3", "C4", "D2", [3]⟩,
  ⟨"Q", "Pictorial information regional (Binary coded)", "B6", "C3", "C5", "D2", [3]⟩,
  ⟨"R", "-", "", "", "", "", []⟩,
  ⟨"S", "Surface data", "B1", "C1/C2", "C1/C2", "**", [2, 4]⟩,
  ⟨"T", "Satellite data", "B1", "C3", "C4", "**", [2]⟩,
  ⟨"U", "Upper air data", "B1", "C1/C2", "C1/C2", "**", [2]⟩,
  ⟨"V", "National data", "(1)", "C1", "C1", "**", []⟩,
  ⟨"W", "Warnings", "B1", "C1", "C1", "**", [1]⟩,
  ⟨"X", "Common Alert Protocol (CAP) messages", "", "", "", "", []⟩,
  ⟨"Y", "GRIB regional use", "B2", "C3", "C5", "D2", [3]⟩,
  ⟨"Z", "-", "", "", "", "", []⟩]

/-- `WMOProductID` from `internal/nwwsio.go`. -/
structure WMOProductID where
  T1 : String
  T2 : String
  A1 : String
  A2 : String
  II : String
deriving DecidableEq, Repr

/-- `ParseTtaaii`: require length exactly 6, slice the five fields at offsets
0, 1, 2, 3 and 4-6. Failure (the Go error) is `none`. -/
def parseTtaaii (ttaaii : String) : Option WMOProductID :=
  if ttaaii.length ≠ 6 then none
  else some ⟨(ttaaii.data.take 1).asString,
             ((ttaaii.data.drop 1).take 1).asString,
             ((ttaaii.data.drop 2).take 1).asString,
             ((ttaaii.data.drop 3).take 1).asString,
             ((ttaaii.data.drop 4).take 2).asString⟩

/-- `GetDataType`: first `DataTable` entry matching `T1`, else `"Unknown"`. -/
def getDataType (w : WMOProductID) : String :=
  match DataTable.find? (fun e => e.T1 = w.T1) with
  | some e => e.DataType
  | none => "Unknown"

/-! ### AWIPS identifiers and the product catalog -/

/-- `AWIPSProductID` from `internal/nwwsio.go`. -/
structure AWIPSProductID where
  NNN : String
  XXX : String
deriving DecidableEq, Repr

/-- `ProductInfo` from the product catalog. -/
structure ProductInfo where
  Name : String
  Category : String
deriving DecidableEq, Repr

/-- `CommonProducts`: the AWIPS product catalog (a Go map literal, keys
distinct; modelled in the source's textual order). -/
def CommonProducts : List (String × ProductInfo) := [
  ("AFD", ⟨"Area Forecast Discussion", "Forecast"⟩),
  ("ZFP", ⟨"Zone Forecast Product", "Forecast"⟩),
  ("NOW", ⟨"Short Term Forecast", "Forecast"⟩),
  ("FWF", ⟨"Fire Weather Forecast", "Fire Weather"⟩),
  ("FWS", ⟨"Fire Weather Outlook", "Fire Weather"⟩),
  ("PFM", ⟨"Point Forecast Matrices", "Forecast"⟩),
  ("SFT", ⟨"Tabular State Forecast", "Forecast"⟩),
  ("TAF", ⟨"Terminal Aerodrome Forecast", "Aviation"⟩),
  ("MET", ⟨"Routine Aviation Weather Report", "Aviation"⟩),
  ("SAO", ⟨"Surface Aviation Observation", "Aviation"⟩),
  ("FT", ⟨"Winds/Temps Aloft Forecast", "Aviation"⟩),
  ("AVG", ⟨"Aviation Gridded Forecast", "Aviation"⟩),
  ("VFT", ⟨"Terminal Forecast Tables", "Aviation"⟩),
  ("TOR", ⟨"Tornado Warning", "Warning"⟩),
  ("SVR", ⟨"Severe Thunderstorm Warning", "Warning"⟩),
  ("FFW", ⟨"Flash Flood Warning", "Warning"⟩),
  ("FFA", ⟨"Flash Flood Watch", "Watch"⟩),
  ("SVS", ⟨"Severe Weather Statement", "Statement"⟩),
  ("SPS", ⟨"Special Weather Statement", "Statement"⟩),
  ("WSW", ⟨"Winter Storm Warning", "Warning"⟩),
  ("WWA", ⟨"Watch Warning Advisory", "Summary"⟩),
  ("CFW", ⟨"Coastal Flood Warning", "Warning"⟩),
  ("FLW", ⟨"Flood Warning", "Warning"⟩),
  ("WAR", ⟨"Space Weather Warning", "Warning"⟩),
  ("MWS", ⟨"Marine Weather Statement", "Marine"⟩),
  ("MWW", ⟨"Marine Weather Warning", "Marine"⟩),
  ("OFF", ⟨"Offshore Forecast", "Marine"⟩),
  ("CWF", ⟨"Coastal Waters Forecast", "Marine"⟩),
  ("RRM", ⟨"Rainfall Storm Total", "Hydrology"⟩),
  ("RR", ⟨"Hydrologic Data", "Hydrology"⟩),
  ("RR1", ⟨"Hydrologic Data (1-hour)", "Hydrology"⟩),
  ("RR2", ⟨"Hydrologic Data (2-hour)", "Hydrology"⟩),
  ("RR3", ⟨"Hydrologic Data (3-hour)", "Hydrology"⟩),
  ("RR4", ⟨"Hydrologic Data (4-hour)", "Hydrology"⟩),
  ("RR5", ⟨"Hydrologic Data (5-hour)", "Hydrology"⟩),
  ("RR6", ⟨"Hydrologic Data (6-hour)", "Hydrology"⟩),
  ("RR7", ⟨"Hydrologic Data (7-hour)", "Hydrology"⟩),
  ("RR8", ⟨"Hydrologic Data (8-hour)", "Hydrology"⟩),
  ("RR9", ⟨"Hydrologic Data (9-hour)", "Hydrology"⟩),
  ("FLS", ⟨"Flood Statement", "Hydrology"⟩),
  ("HML", ⟨"Hydrologic Monitoring Statement", "Hydrology"⟩),
  ("CLI", ⟨"Daily Climate Report", "Climate"⟩),
  ("RTP", ⟨"Regional Temperature/Precipitation", "Climate"⟩),
  ("RER", ⟨"Record Event Report", "Climate"⟩),
  ("LSR", ⟨"Local Storm Report", "Observation"⟩),
  ("RWR", ⟨"Regional Weather Roundup", "Summary"⟩),
  ("PNS", ⟨"Public Information Statement", "Public Info"⟩),
  ("HWO", ⟨"Hazardous Weather Outlook", "Outlook"⟩),
  ("RWS", ⟨"Regional Weather Summary", "Summary"⟩),
  ("CAP", ⟨"Common Alerting Protocol", "Administrative"⟩),
  ("AFM", ⟨"Area Forecast Matrices", "Forecast"⟩),
  ("FHM", ⟨"Forecast Hydrometeorological", "Forecast"⟩),
  ("NSH", ⟨"Nearshore Marine Forecast", "Marine"⟩),
  ("FWM", ⟨"Fire Weather Matrix", "Fire Weather"⟩)]

/-- `ParseAwipsID`: trim surrounding whitespace, require length at least 3,
split into the 3-character category prefix and the remainder. -/
def parseAwipsID (awipsID : String) : Option AWIPSProductID :=
  let a := goTrim awipsID
  if a.length < 3 then none
  else some ⟨(a.data.take 3).asString, (a.data.drop 3).asString⟩

/-- `GetProductName`: catalog name, else the raw abbreviation. -/
def getProductName (a : AWIPSProductID) : String :=
  match lookupA CommonProducts a.NNN with
  | some info => info.Name
  | none => a.NNN

/-- `GetProductCategory`: catalog category, else `"Unknown"`. -/
def getProductCategory (a : AWIPSProductID) : String :=
  match lookupA CommonProducts a.NNN with
  | some info => info.Category
  | none => "Unknown"

/-! ### CAP alert structures and decoder (the CAP source file) -/

/-- `ValuePair`: a CAP name/value pair (parameters, geocodes). -/
structure ValuePair where
  ValueName : String
  Value : String
deriving DecidableEq, Repr

/-- `Resource`: a CAP supplementary resource. -/
structure Resource where
  ResourceDesc : String
  MimeType : String
  Size : Int
  URI : String
  DerefURI : String
  Digest : String
deriving DecidableEq, Repr

/-- `Area`: a CAP geographic area. -/
structure Area where
  AreaDesc : String
  Polygon : List String
  Circle : List String
  Geocode : List ValuePair
  Altitude : String
  Ceiling : String
deriving DecidableEq, Repr

/-- `Info`: one CAP info block. -/
structure CapInfo where
  Language : String
  Category : List String
  Event : String
  ResponseType : List String
  Urgency : String
  Severity : String
  Certainty : String
  Audience : String
  EventCode : List ValuePair
  Effective : String
  Onset : String
  Expires : String
  SenderName : String
  Headline : String
  Description : String
  Instruction : String
  Web : String
  Contact : String
  Parameter : List ValuePair
  Resources : List Resource
  Area : List Area
deriving Repr

/-- `Alert`: the CAP root element. -/
structure Alert where
  Xmlns : String
  Identifier : String
  Sender : String
  Sent : String
  Status : String
  MsgType : String
  Source : String
  Scope : String
  Restriction : String
  Addresses : String
  Code : List String
  Note : String
  References : String
  Incidents : String
  Info : List CapInfo
deriving Repr

/-- `GetPrimaryInfo`: the first info block, if any. -/
def getPrimaryInfo (a : Alert) : Option CapInfo :=
  a.Info.head?

/-- The CAP envelope opening marker checked by `ParseCAP` and `isLikelyCAP`. -/
def capMarker : String := "<alert"

/-- `ParseCAP`, parameterized by the external XML decoder (`xml.Unmarshal`):
trim, return "not an alert" (no error) unless the marker is present, otherwise
run the XML decoder on the trimmed text. -/
def parseCAP (um : String → Except String Alert) (xmlText : String) :
    Except String (Option Alert) :=
  let t := goTrim xmlText
  if goContains t capMarker then
    match um t with
    | .ok a => .ok (some a)
    | .error e => .error e
  else .ok none

/-! ### Dispatcher (`handleMessage` and helpers in the client package) -/

/-- The NWWS-OI `<x>` extension fields consumed by the dispatcher. -/
structure NMsg where
  cccc : String
  ttaaii : String
  issue : String
  awipsID : String
  text : String
  id : String
deriving DecidableEq, Repr

/-- Model of Go `strings.Split(s, ".")` on the character level. -/
def splitOnDot : List Char → List (List Char)
  | [] => [[]]
  | c :: rest =>
      let r := splitOnDot rest
      if c = '.' then [] :: r
      else
        match r with
        | [] => [[c]]
        | h :: t => (c :: h) :: t

/-- Model of Go `strings.Split(s, ".")`. -/
def goSplitDot (s : String) : List String :=
  (splitOnDot s.data).map List.asString

/-- Digit-accumulating helper for `atoiGo`. -/
def digitsValAux : List Char → Nat → Option Nat
  | [], acc => some acc
  | c :: rest, acc =>
      if c.isDigit then digitsValAux rest (acc * 10 + (c.toNat - '0'.toNat))
      else none

/-- The value of a non-empty all-digit string. -/
def digitsVal : List Char → Option Nat
  | [] => none
  | l => digitsValAux l 0

/-- Model of Go `strconv.Atoi`: optional sign, then at least one digit
(machine-width overflow is immaterial for the sequence counters). -/
def atoiGo (s : String) : Option Int :=
  match s.data with
  | '+' :: rest => (digitsVal rest).map Int.ofNat
  | '-' :: rest => (digitsVal rest).map (fun n => -(n : Int))
  | l => (digitsVal l).map Int.ofNat

/-- `GetSequenceID`: split the compound id on `"."` into exactly two parts,
origin id and numeric counter. -/
def getSequenceID (id : String) : Option (String × Int) :=
  match goSplitDot id with
  | [a, b] =>
      match atoiGo b with
      | some n => some (a, n)
      | none => none
  | _ => none

/-- `isLikelyCAP`: the WMO type is CAP (`T1 = "X"`) or the text carries the
envelope marker. -/
def isLikelyCAP (productID : WMOProductID) (text : String) : Bool :=
  productID.T1 = "X" || goContains text capMarker

/-- `productInfo` from the client package. -/
structure PInfo where
  productID : WMOProductID
  productName : String
  productCategory : String
  capAlert : Option Alert

/-- `parseProductInfo`: WMO id parse is fatal to the bulletin; the AWIPS parse
falls back to the WMO data type and `"Unknown"` category; the CAP parse is
attempted only when likely, and its failure leaves `capAlert` empty. -/
def parseProductInfo (um : String → Except String Alert) (m : NMsg) :
    Option PInfo :=
  match parseTtaaii m.ttaaii with
  | none => none
  | some productID =>
      let fallback := (getDataType productID, "Unknown")
      let nameCat :=
        match parseAwipsID m.awipsID with
        | some awips => (getProductName awips, getProductCategory awips)
        | none => fallback
      let capAlert :=
        if isLikelyCAP productID m.text then
          match parseCAP um m.text with
          | .ok o => o
          | .error _ => none
        else none
      some ⟨productID, nameCat.1, nameCat.2, capAlert⟩

/-- `buildDisplayName`: category-qualified product name, overridden by CAP
event/severity/urgency when a decoded alert carries an event. -/
def buildDisplayName (info : PInfo) : String :=
  let displayName :=
    if info.productCategory ≠ "Unknown" then
      info.productName ++ " (" ++ info.productCategory ++ ")"
    else info.productName
  match info.capAlert with
  | some a =>
      match getPrimaryInfo a with
      | some ci =>
          if ci.Event ≠ "" then
            ci.Event ++ " [" ++ ci.Severity ++ "/" ++ ci.Urgency ++ "]"
          else displayName
      | none => displayName
  | none => displayName

/-- `shouldSendToSubscriber`: any filter, lowercased, equal to `"all"`, or to
`"cap"` on an alert-flagged bulletin, or to the lowercased category. -/
def shouldSendToSubscriber (sub : Subscription) (productCategory : String)
    (isCAP : Bool) : Bool :=
  sub.Filters.any (fun filter =>
    let filterLower := goLower filter
    filterLower = "all" || (filterLower = "cap" && isCAP) ||
      filterLower = goLower productCategory)

/-- `deliverToSubscribers`: the user ids actually messaged, in subscription
order (the private-message send is the elided external sink). -/
def deliverToSubscribers (stationSubscribers : List (String × List Subscription))
    (cccc : String) (info : PInfo) : List String :=
  let subscriptions := getStationSubscriptions stationSubscribers cccc
  let isCAP := info.capAlert.isSome
  (subscriptions.filter
    (fun sub => shouldSendToSubscriber sub info.productCategory isCAP)).map
    (fun sub => sub.UserID)

/-- The client state touched by `handleMessage`: the subscription manager's two
maps and the sequence tracker. -/
structure ClientState where
  stationSubscribers : List (String × List Subscription)
  recentMessages : List (String × List RecentMessage)
  lastSequence : List (String × Int)
deriving Repr

/-- The AWIPS-id normalization at the top of `handleMessage`. -/
def trimMsg (m : NMsg) : NMsg :=
  { m with awipsID := goTrim m.awipsID }

/-- The sequence-tracking step of `handleMessage`: parse failure is logged and
ignored, success feeds `checkSequenceGaps`. -/
def seqUpdate (st : ClientState) (id : String) : ClientState :=
  match getSequenceID id with
  | some (pid, seq) =>
      { st with lastSequence := (checkSequenceGaps st.lastSequence pid seq).1 }
  | none => st

/-- `handleMessage`: normalize the AWIPS id, track sequence gaps, parse product
info (drop the bulletin on failure), record recent history, deliver to the
matching subscribers. Returns the new state and the user ids messaged. -/
def handleMessage (um : String → Except String Alert) (st : ClientState)
    (m0 : NMsg) : ClientState × List String :=
  let m := trimMsg m0
  let st1 := seqUpdate st m.id
  match parseProductInfo um m with
  | none => (st1, [])
  | some info =>
      let displayName := buildDisplayName info
      let entry : RecentMessage := ⟨m.cccc, displayName, m.awipsID, m.issue, m.text⟩
      let st2 := { st1 with recentMessages := addRecentMessage st1.recentMessages entry }
      (st2, deliverToSubscribers st2.stationSubscribers m.cccc info)

/-! ### Persistence (`Save` / `Load` in `subscriptions.go`)

`Save` marshals the station-to-subscriptions map to JSON and atomically writes
the file; `Load` reads and unmarshals it. We model the JSON layer explicitly:
the file-system write/rename and backup handling are external effects, and Go's
`encoding/json` is faithful on the value level, so the round trip of interest
is encode-then-decode of the JSON document. -/

/-- A JSON document, restricted to the shapes the subscription file uses. -/
inductive Json where
  | str : String → Json
  | arr : List Json → Json
  | obj : List (String × Json) → Json

/-- JSON encoding of one `Subscription` (field names as in the Go struct). -/
def encodeSubscription (s : Subscription) : Json :=
  .obj [("UserID", .str s.UserID), ("Filters", .arr (s.Filters.map .str))]

/-- `Save`'s document: the station map as a JSON object (one key per station). -/
def saveStore (m : List (String × List Subscription)) : Json :=
  .obj (m.map (fun p => (p.1, .arr (p.2.map encodeSubscription))))

/-- Decode a JSON array of strings. -/
def decodeStringList : List Json → Option (List String)
  | [] => some []
  | .str s :: t => (decodeStringList t).map (fun rest => s :: rest)
  | _ => none

/-- Decode one subscription object. -/
def decodeSubscription : Json → Option Subscription
  | .obj [("UserID", .str u), ("Filters", .arr l)] =>
      (decodeStringList l).map (fun fs => ⟨u, fs⟩)
  | _ => none

/-- Decode a JSON array of subscription objects. -/
def decodeSubList : List Json → Option (List Subscription)
  | [] => some []
  | j :: t =>
      match decodeSubscription j, decodeSubList t with
      | some s, some rest => some (s :: rest)
      | _, _ => none

/-- Decode the entries of the top-level station object. -/
def decodeEntries : List (String × Json) → Option (List (String × List Subscription))
  | [] => some []
  | (k, .arr l) :: t =>
      match decodeSubList l, decodeEntries t with
      | some subs, some rest => some ((k, subs) :: rest)
      | _, _ => none
  | _ => none

/-- `Load`'s unmarshal of the subscription document. -/
def loadStore : Json → Option (List (String × List Subscription))
  | .obj entries => decodeEntries entries
  | _ => none

/-- Station-map equivalence in the claim's sense: the same stations, for each
station the same users, and for each user the same filter set (order
immaterial: membership-wise). -/
def storeEquiv (a b : List (String × List Subscription)) : Prop :=
  (∀ s, (lookupA a s).isSome ↔ (lookupA b s).isSome) ∧
  (∀ s u, ((lookupA a s).getD []).any (fun x => x.UserID = u) =
          ((lookupA b s).getD []).any (fun x => x.UserID = u)) ∧
  (∀ s u f,
    (((lookupA a s).getD []).find? (fun x => x.UserID = u)).elim False
        (fun x => f ∈ x.Filters) ↔
    (((lookupA b s).getD []).find? (fun x => x.UserID = u)).elim False
        (fun x => f ∈ x.Filters))

/-- How many subscriptions of `u` a station's list holds. -/
def countUser (subs : List Subscription) (u : String) : Nat :=
  (subs.filter (fun s => s.UserID = u)).length

/-- The filters of the first subscription of `u` in a station's list. -/
def userFilters (subs : List Subscription) (u : String) : Option (List String) :=
  (subs.find? (fun s => s.UserID = u)).map (fun s => s.Filters)

/-! ## Helper lemmas -/

theorem lookupA_setA_self {α : Type} (m : List (String × α)) (k : String) (v : α) :
    lookupA (setA m k v) k = some v := by
  induction m with
  | nil => simp [setA, lookupA]
  | cons p t ih =>
      obtain ⟨k', v'⟩ := p
      by_cases h : k' = k
      · simp [setA, h, lookupA]
      · simp [setA, h, lookupA, ih]

theorem lookupA_setA_ne {α : Type} (m : List (String × α)) {k k' : String} (v : α)
    (h : k' ≠ k) : lookupA (setA m k v) k' = lookupA m k' := by
  have h' : ¬ (k = k') := fun hk => h hk.symm
  induction m with
  | nil => simp [setA, lookupA, h']
  | cons p t ih =>
      obtain ⟨k₀, v₀⟩ := p
      by_cases hk : k₀ = k
      · subst hk
        simp [setA, lookupA, h']
      · simp [setA, hk, lookupA, ih]

theorem lookupA_eq_none_iff {α : Type} (m : List (String × α)) (k : String) :
    lookupA m k = none ↔ k ∉ m.map Prod.fst := by
  induction m with
  | nil => simp [lookupA]
  | cons p t ih =>
      obtain ⟨k₀, v₀⟩ := p
      by_cases hk : k₀ = k
      · simp [lookupA, hk]
      · have hk' : ¬ (k = k₀) := fun h => hk h.symm
        simp [lookupA, hk, ih, hk']

theorem keys_setA_of_none {α : Type} {m : List (String × α)} {k : String} (v : α)
    (hnone : lookupA m k = none) :
    (setA m k v).map Prod.fst = m.map Prod.fst ++ [k] := by
  induction m with
  | nil => simp [setA]
  | cons p t ih =>
      obtain ⟨k₀, v₀⟩ := p
      by_cases hk : k₀ = k
      · simp [lookupA, hk] at hnone
      · simp only [lookupA, hk, if_false] at hnone
        simp [setA, hk, ih hnone]

theorem keys_setA_of_some {α : Type} {m : List (String × α)} {k : String} (v : α)
    (hsome : lookupA m k ≠ none) :
    (setA m k v).map Prod.fst = m.map Prod.fst := by
  induction m with
  | nil => simp [lookupA] at hsome
  | cons p t ih =>
      obtain ⟨k₀, v₀⟩ := p
      by_cases hk : k₀ = k
      · simp [setA, hk]
      · simp only [lookupA, hk, if_false] at hsome
        simp [setA, hk, ih hsome]

theorem keysNodup_setA {α : Type} (m : List (String × α)) (k : String) (v : α)
    (h : keysNodup m) : keysNodup (setA m k v) := by
  unfold keysNodup at h ⊢
  cases hl : lookupA m k with
  | none =>
      rw [keys_setA_of_none v hl]
      have hk : k ∉ m.map Prod.fst := (lookupA_eq_none_iff m k).1 hl
      simp [List.nodup_append, h, hk]
  | some w =>
      rw [keys_setA_of_some v (by simp [hl])]
      exact h

theorem countUser_cons (s : Subscription) (rest : List Subscription) (u : String) :
    countUser (s :: rest) u = (if s.UserID = u then 1 else 0) + countUser rest u := by
  by_cases hs : s.UserID = u <;> simp [countUser, List.filter_cons, hs, Nat.add_comm]

theorem countUser_append (a b : List Subscription) (u : String) :
    countUser (a ++ b) u = countUser a u + countUser b u := by
  simp [countUser, List.filter_append]

theorem countUser_removeUser {subs : List Subscription} {u : String}
    (h : countUser subs u ≤ 1) : countUser (removeUser subs u) u = 0 := by
  induction subs with
  | nil => simp [removeUser, countUser]
  | cons s rest ih =>
      rw [countUser_cons] at h
      by_cases hs : s.UserID = u
      · rw [if_pos hs] at h
        have hz : countUser rest u = 0 := by omega
        simpa [removeUser, hs] using hz
      · rw [if_neg hs] at h
        rw [removeUser, if_neg hs, countUser_cons, if_neg hs]
        simpa using ih (by omega)

theorem find?_user_eq_none_of_count_zero {subs : List Subscription} {u : String}
    (h : countUser subs u = 0) : subs.find? (fun s => s.UserID = u) = none := by
  rw [List.find?_eq_none]
  intro x hx hpx
  have hmem : x ∈ subs.filter (fun s => s.UserID = u) := List.mem_filter.2 ⟨hx, hpx⟩
  rw [countUser, List.length_eq_zero] at h
  rw [h] at hmem
  exact absurd hmem (List.not_mem_nil x)

theorem find?_append_of_none {α : Type} {l l' : List α} {p : α → Bool}
    (h : l.find? p = none) : (l ++ l').find? p = l'.find? p := by
  induction l with
  | nil => rfl
  | cons a t ih =>
      rw [List.find?_cons] at h
      cases hpa : p a with
      | true => rw [hpa] at h; exact absurd h (by simp)
      | false =>
          rw [hpa] at h
          simpa [List.find?_cons, hpa] using ih h

/-! ### Substring and trimming facts -/

theorem startsWith_iff (l p : List Char) : startsWith l p = true ↔ ∃ t, l = p ++ t := by
  induction p generalizing l with
  | nil => cases l <;> simp [startsWith]
  | cons b bs ih =>
      cases l with
      | nil => simp [startsWith]
      | cons a as =>
          simp only [startsWith, Bool.and_eq_true, decide_eq_true_eq, ih,
            List.cons_append, List.cons.injEq]
          constructor
          · rintro ⟨rfl, t, rfl⟩
            exact ⟨t, rfl, rfl⟩
          · rintro ⟨t, rfl, rfl⟩
            exact ⟨rfl, t, rfl⟩

theorem hasSub_iff (l p : List Char) : hasSub l p = true ↔ ∃ s t, l = s ++ (p ++ t) := by
  induction l with
  | nil =>
      rw [hasSub]
      constructor
      · intro h
        exact ⟨[], [], by simp [List.isEmpty_iff.1 h]⟩
      · rintro ⟨s, t, ht⟩
        have := (List.append_eq_nil.1 ht.symm).2
        have hp := (List.append_eq_nil.1 this).1
        simp [hp, List.isEmpty_iff]
  | cons a as ih =>
      rw [hasSub]
      simp only [Bool.or_eq_true, startsWith_iff, ih]
      constructor
      · rintro (⟨t, ht⟩ | ⟨s, t, ht⟩)
        · exact ⟨[], t, by simpa using ht⟩
        · exact ⟨a :: s, t, by simp [ht]⟩
      · rintro ⟨s, t, ht⟩
        cases s with
        | nil => exact Or.inl ⟨t, by simpa using ht⟩
        | cons x xs =>
            rw [List.cons_append, List.cons.injEq] at ht
            exact Or.inr ⟨xs, t, ht.2⟩

theorem hasSub_extend {x y l p : List Char} (h : hasSub l p = true) :
    hasSub (x ++ l ++ y) p = true := by
  rcases (hasSub_iff l p).1 h with ⟨s, t, rfl⟩
  exact (hasSub_iff _ p).2 ⟨x ++ s, t ++ y, by simp⟩

theorem trimList_decomp (l : List Char) : ∃ u v, l = u ++ trimList l ++ v := by
  refine ⟨l.takeWhile wsChar, ((l.dropWhile wsChar).reverse.takeWhile wsChar).reverse, ?_⟩
  unfold trimList
  conv_lhs => rw [← List.takeWhile_append_dropWhile (p := wsChar) (l := l)]
  rw [List.append_assoc]
  congr 1
  calc l.dropWhile wsChar
      = ((l.dropWhile wsChar).reverse).reverse := by rw [List.reverse_reverse]
    _ = (List.takeWhile wsChar (l.dropWhile wsChar).reverse ++
          List.dropWhile wsChar (l.dropWhile wsChar).reverse).reverse := by
          rw [List.takeWhile_append_dropWhile]
    _ = (List.dropWhile wsChar (l.dropWhile wsChar).reverse).reverse ++
          (List.takeWhile wsChar (l.dropWhile wsChar).reverse).reverse := by
          rw [List.reverse_append]

theorem goContains_of_trim {s pat : String} (h : goContains (goTrim s) pat = true) :
    goContains s pat = true := by
  unfold goContains goTrim at *
  rw [show ((trimList s.data).asString).data = trimList s.data from rfl] at h
  rcases trimList_decomp s.data with ⟨u, v, hl⟩
  rw [hl]
  exact hasSub_extend h

theorem trimList_length_le (l : List Char) : (trimList l).length ≤ l.length := by
  rcases trimList_decomp l with ⟨u, v, h⟩
  conv_rhs => rw [h]
  simp [List.length_append]
  omega

theorem goTrim_length_le (s : String) : (goTrim s).length ≤ s.length := by
  obtain ⟨l⟩ := s
  exact trimList_length_le l

/-! ### Dispatcher unfolding lemmas -/

theorem trimMsg_id (m : NMsg) : (trimMsg m).id = m.id := rfl

theorem trimMsg_cccc (m : NMsg) : (trimMsg m).cccc = m.cccc := rfl

theorem trimMsg_issue (m : NMsg) : (trimMsg m).issue = m.issue := rfl

theorem trimMsg_text (m : NMsg) : (trimMsg m).text = m.text := rfl

theorem trimMsg_ttaaii (m : NMsg) : (trimMsg m).ttaaii = m.ttaaii := rfl

theorem trimMsg_awipsID (m : NMsg) : (trimMsg m).awipsID = goTrim m.awipsID := rfl

theorem seqUpdate_stationSubscribers (st : ClientState) (id : String) :
    (seqUpdate st id).stationSubscribers = st.stationSubscribers := by
  unfold seqUpdate
  cases getSequenceID id with
  | none => rfl
  | some p => rfl

theorem seqUpdate_recentMessages (st : ClientState) (id : String) :
    (seqUpdate st id).recentMessages = st.recentMessages := by
  unfold seqUpdate
  cases getSequenceID id with
  | none => rfl
  | some p => rfl

theorem handleMessage_eq_of_none {um : String → Except String Alert}
    {st : ClientState} {m0 : NMsg}
    (h : parseProductInfo um (trimMsg m0) = none) :
    handleMessage um st m0 = (seqUpdate st m0.id, []) := by
  simp only [handleMessage, h, trimMsg_id]

theorem handleMessage_eq_of_some {um : String → Except String Alert}
    {st : ClientState} {m0 : NMsg} {info : PInfo}
    (h : parseProductInfo um (trimMsg m0) = some info) :
    handleMessage um st m0 =
      ({ stationSubscribers := st.stationSubscribers,
         recentMessages := addRecentMessage st.recentMessages
           ⟨m0.cccc, buildDisplayName info, goTrim m0.awipsID, m0.issue, m0.text⟩,
         lastSequence := (seqUpdate st m0.id).lastSequence },
       deliverToSubscribers st.stationSubscribers m0.cccc info) := by
  simp only [handleMessage, h, seqUpdate_recentMessages, seqUpdate_stationSubscribers,
    trimMsg_id, trimMsg_cccc, trimMsg_issue, trimMsg_text, trimMsg_awipsID]

/-! ### JSON round-trip lemmas -/

theorem decodeStringList_encode (l : List String) :
    decodeStringList (l.map Json.str) = some l := by
  induction l with
  | nil => rfl
  | cons s t ih => simp [decodeStringList, ih]

theorem decodeSubscription_encode (s : Subscription) :
    decodeSubscription (encodeSubscription s) = some s := by
  obtain ⟨u, fs⟩ := s
  simp [encodeSubscription, decodeSubscription, decodeStringList_encode]

theorem decodeSubList_encode (subs : List Subscription) :
    decodeSubList (subs.map encodeSubscription) = some subs := by
  induction subs with
  | nil => rfl
  | cons s t ih => simp [decodeSubList, decodeSubscription_encode, ih]

theorem decodeEntries_encode (m : List (String × List Subscription)) :
    decodeEntries (m.map (fun p => (p.1, Json.arr (p.2.map encodeSubscription)))) =
      some m := by
  induction m with
  | nil => rfl
  | cons p t ih =>
      obtain ⟨k, subs⟩ := p
      simp [decodeEntries, decodeSubList_encode, ih]

theorem loadStore_saveStore (m : List (String × List Subscription)) :
    loadStore (saveStore m) = some m := by
  simp [loadStore, saveStore, decodeEntries_encode]

/-! ### Recent-history bound lemmas -/

theorem addRecentMessage_len_le {m : List (String × List RecentMessage)}
    (h : ∀ k, ((lookupA m k).getD []).length ≤ maxRecentMessages)
    (msg : RecentMessage) :
    ∀ k, ((lookupA (addRecentMessage m msg) k).getD []).length ≤ maxRecentMessages := by
  intro k
  unfold addRecentMessage
  by_cases hk : k = goUpper msg.Station
  · subst hk
    rw [lookupA_setA_self]
    have hL := h (goUpper msg.Station)
    set old := (lookupA m (goUpper msg.Station)).getD [] with hold
    by_cases hlen : (old ++ [msg]).length > maxRecentMessages
    · simp only [if_pos hlen, Option.getD_some]
      rw [List.length_tail]
      simp [List.length_append] at hlen ⊢
      omega
    · simp only [if_neg hlen, Option.getD_some]
      omega
  · rw [lookupA_setA_ne _ _ hk]
    exact h k

theorem foldl_addRecentMessage_len_le (msgs : List RecentMessage) :
    ∀ (m : List (String × List RecentMessage)),
    (∀ k, ((lookupA m k).getD []).length ≤ maxRecentMessages) →
    ∀ k, ((lookupA (msgs.foldl addRecentMessage m) k).getD []).length ≤
      maxRecentMessages := by
  induction msgs with
  | nil => intro m h k; exact h k
  | cons msg rest ih =>
      intro m h k
      exact ih (addRecentMessage m msg) (addRecentMessage_len_le h msg) k

/-! ### Catalog category facts -/

theorem lookupA_mem {α : Type} {l : List (String × α)} {k : String} {v : α}
    (h : lookupA l k = some v) : (k, v) ∈ l := by
  induction l with
  | nil => simp [lookupA] at h
  | cons p t ih =>
      obtain ⟨k₀, v₀⟩ := p
      by_cases hk : k₀ = k
      · rw [lookupA, if_pos hk] at h
        exact (by simp [hk, Option.some.inj h] : (k, v) ∈ (k₀, v₀) :: t)
      · rw [lookupA, if_neg hk] at h
        exact List.mem_cons_of_mem _ (ih h)

theorem catalog_category_not_special {p : String × ProductInfo}
    (hp : p ∈ CommonProducts) :
    goLower p.2.Category ≠ "cap" ∧ goLower p.2.Category ≠ "all" := by
  have hall : CommonProducts.all
      (fun q => !(goLower q.2.Category = "cap" || goLower q.2.Category = "all")) = true := by
    decide
  have hq := List.all_eq_true.1 hall p hp
  simp only [Bool.not_eq_true', Bool.or_eq_false_iff, decide_eq_false_iff_not] at hq
  exact hq

theorem getProductCategory_not_special (a : AWIPSProductID) :
    goLower (getProductCategory a) ≠ "cap" ∧ goLower (getProductCategory a) ≠ "all" := by
  unfold getProductCategory
  cases hl : lookupA CommonProducts a.NNN with
  | none => exact ⟨by decide, by decide⟩
  | some info => exact catalog_category_not_special (lookupA_mem hl)

theorem getStation_subscribe_self (m : List (String × List Subscription))
    (userID stationCode : String) (f : List String) :
    getStationSubscriptions (subscribeToStation m userID stationCode f) stationCode =
      removeUser (getStationSubscriptions m stationCode) userID ++
        [⟨userID, normalizeFilters f⟩] := by
  simp only [getStationSubscriptions, subscribeToStation]
  rw [lookupA_setA_self]
  rfl

theorem parseProductInfo_eq_none {um : String → Except String Alert} {m : NMsg}
    (h : parseTtaaii m.ttaaii = none) : parseProductInfo um m = none := by
  unfold parseProductInfo
  rw [h]

theorem parseProductInfo_fallback (um : String → Except String Alert) (m : NMsg)
    {pid : WMOProductID} (h : parseTtaaii m.ttaaii = some pid)
    (ha : parseAwipsID m.awipsID = none) :
    ∃ info, parseProductInfo um m = some info ∧ info.productID = pid ∧
      info.productName = getDataType pid ∧ info.productCategory = "Unknown" := by
  unfold parseProductInfo
  simp only [h, ha]
  exact ⟨_, rfl, rfl, rfl, rfl⟩

theorem parseProductInfo_isSome (um : String → Except String Alert) (m : NMsg)
    {pid : WMOProductID} (h : parseTtaaii m.ttaaii = some pid) :
    ∃ info, parseProductInfo um m = some info := by
  unfold parseProductInfo
  simp only [h]
  exact ⟨_, rfl⟩

theorem parseProductInfo_capAlert_none {um : String → Except String Alert}
    {e : String} (m : NMsg) {info : PInfo} (hum : um (goTrim m.text) = .error e)
    (hp : parseProductInfo um m = some info) : info.capAlert = none := by
  unfold parseProductInfo at hp
  cases hpt : parseTtaaii m.ttaaii with
  | none => rw [hpt] at hp; exact absurd hp (by simp)
  | some pid =>
      rw [hpt] at hp
      simp only [Option.some.injEq] at hp
      subst hp
      show (if isLikelyCAP pid m.text then
        match parseCAP um m.text with
        | .ok o => o
        | .error _ => none
        else none) = none
      by_cases hl : isLikelyCAP pid m.text
      · rw [if_pos hl]
        unfold parseCAP
        by_cases hc : goContains (goTrim m.text) capMarker
        · simp [hc, hum]
        · simp [hc]
      · rw [if_neg hl]

/-! ## Claim theorems -/

/-- C7: parsing the meteorological code succeeds exactly when the input length
is 6, and on success the five fields are taken at fixed offsets 0, 1, 2, 3 and
4-6 of the input; any other length yields a decode error (`none`). -/
theorem c7_parseTtaaii_offsets :
    (∀ t : String, (parseTtaaii t).isSome ↔ t.length = 6) ∧
    (∀ c0 c1 c2 c3 c4 c5 : Char,
      parseTtaaii ⟨[c0, c1, c2, c3, c4, c5]⟩ =
        some ⟨⟨[c0]⟩, ⟨[c1]⟩, ⟨[c2]⟩, ⟨[c3]⟩, ⟨[c4, c5]⟩⟩) := by
  constructor
  · intro t
    unfold parseTtaaii
    by_cases h : t.length = 6 <;> simp [h]
  · intro c0 c1 c2 c3 c4 c5
    rfl

/-- C8: product-code parsing trims surrounding whitespace, fails exactly when
the trimmed length is below 3, and otherwise yields the first 3 characters as
the category prefix (always of length 3) and the remainder as geo designator;
a prefix absent from the catalog is not an error: the raw prefix becomes the
display name and the category is the sentinel `"Unknown"`. -/
theorem c8_parseAwipsID_split :
    (∀ s : String, (parseAwipsID s).isSome ↔ ¬ (goTrim s).length < 3) ∧
    (∀ (s : String) (w : AWIPSProductID), parseAwipsID s = some w →
      w.NNN = ((goTrim s).data.take 3).asString ∧
      w.XXX = ((goTrim s).data.drop 3).asString ∧ w.NNN.length = 3) ∧
    (∀ a : AWIPSProductID, lookupA CommonProducts a.NNN = none →
      getProductName a = a.NNN ∧ getProductCategory a = "Unknown") := by
  refine ⟨?_, ?_, ?_⟩
  · intro s
    unfold parseAwipsID
    by_cases h : (goTrim s).length < 3 <;> simp [h]
  · intro s w h
    unfold parseAwipsID at h
    by_cases hlen : (goTrim s).length < 3
    · rw [if_pos hlen] at h
      exact absurd h (by simp)
    · rw [if_neg hlen] at h
      obtain ⟨hN⟩ := Option.some.inj h
      refine ⟨rfl, rfl, ?_⟩
      have hd : (goTrim s).data.length = (goTrim s).length := rfl
      show (((goTrim s).data.take 3).asString).length = 3
      show ((goTrim s).data.take 3).length = 3
      rw [List.length_take]
      omega
  · intro a h
    simp [getProductName, getProductCategory, h]

theorem c8_witness :
    ((⟨"RR8", "ARX"⟩ : AWIPSProductID).NNN = ((goTrim " RR8ARX ").data.take 3).asString ∧
     (⟨"RR8", "ARX"⟩ : AWIPSProductID).XXX = ((goTrim " RR8ARX ").data.drop 3).asString ∧
     (⟨"RR8", "ARX"⟩ : AWIPSProductID).NNN.length = 3) ∧
    (getProductName ⟨"ZZZ", "AX"⟩ = "ZZZ" ∧
     getProductCategory ⟨"ZZZ", "AX"⟩ = "Unknown") :=
  ⟨c8_parseAwipsID_split.2.1 " RR8ARX " ⟨"RR8", "ARX"⟩ (by decide),
   c8_parseAwipsID_split.2.2 ⟨"ZZZ", "AX"⟩ (by decide)⟩

/-- C2: saving the station map and loading it back yields an equivalent
mapping: the same stations, for each station the same users, and for each user
the same filter set (order immaterial). -/
theorem c2_save_load_roundtrip :
    ∀ m : List (String × List Subscription),
      ∃ m', loadStore (saveStore m) = some m' ∧ storeEquiv m m' := by
  intro m
  exact ⟨m, loadStore_saveStore m,
    fun s => Iff.rfl, fun s u => rfl, fun s u f => Iff.rfl⟩

/-- C4: the per-station recent list never exceeds `MaxRecentMessages = 5`
entries after any sequence of `AddRecentMessage` calls from the fresh store,
and inserting 7 messages for one station retains exactly the last 5 in
oldest-first order. -/
theorem c4_recent_ring_bound :
    (∀ (msgs : List RecentMessage) (station : String),
      (getRecentMessages (msgs.foldl addRecentMessage []) station).length ≤
        maxRecentMessages) ∧
    (getRecentMessages
        ([⟨"KARX", "", "", "", "m1"⟩, ⟨"KARX", "", "", "", "m2"⟩,
          ⟨"KARX", "", "", "", "m3"⟩, ⟨"KARX", "", "", "", "m4"⟩,
          ⟨"KARX", "", "", "", "m5"⟩, ⟨"KARX", "", "", "", "m6"⟩,
          ⟨"KARX", "", "", "", "m7"⟩].foldl addRecentMessage []) "KARX" =
      [⟨"KARX", "", "", "", "m3"⟩, ⟨"KARX", "", "", "", "m4"⟩,
       ⟨"KARX", "", "", "", "m5"⟩, ⟨"KARX", "", "", "", "m6"⟩,
       ⟨"KARX", "", "", "", "m7"⟩]) := by
  constructor
  · intro msgs station
    unfold getRecentMessages
    exact foldl_addRecentMessage_len_le msgs []
      (by intro k; simp [lookupA]) (goUpper station)
  · decide

/-- C5: when a counter arrives whose delta from the origin's last observed
counter is not exactly 1, exactly one gap is reported at that observation with
missed-count `received - (last + 1)`; the tracker is always updated to the
latest counter; counters 1, 2, 4 for one origin report exactly one gap with
missed-count 1. -/
theorem c5_sequence_gap_detection :
    (∀ (st : List (String × Int)) (pid : String) (seq lastSeq : Int),
      lookupA st pid = some lastSeq → seq ≠ lastSeq + 1 →
      (checkSequenceGaps st pid seq).2 =
        some ⟨pid, lastSeq + 1, seq, seq - (lastSeq + 1)⟩) ∧
    (∀ (st : List (String × Int)) (pid : String) (seq : Int),
      lookupA (checkSequenceGaps st pid seq).1 pid = some seq) ∧
    ((runSequence [] "10313" [1, 2, 4]).2 = [⟨"10313", 3, 4, 1⟩]) := by
  refine ⟨?_, ?_, ?_⟩
  · intro st pid seq lastSeq hlast hne
    simp [checkSequenceGaps, hlast, hne]
  · intro st pid seq
    unfold checkSequenceGaps
    exact lookupA_setA_self st pid seq
  · decide

theorem c5_witness :
    (checkSequenceGaps [("10313", 2)] "10313" 4).2 = some ⟨"10313", 3, 4, 1⟩ ∧
    lookupA (checkSequenceGaps [("10313", 2)] "10313" 4).1 "10313" = some 4 :=
  ⟨c5_sequence_gap_detection.1 [("10313", 2)] "10313" 4 2 (by decide) (by decide),
   c5_sequence_gap_detection.2.1 [("10313", 2)] "10313" 4⟩

/-- C10: a subscription whose filter list is empty matches no bulletin and its
user is never messaged; `subscribe` itself can never create such a state (it
defaults empty input to `["cap"]` and normalization never yields an empty
list), but `Load`'s decoder can introduce one from a persisted file. -/
theorem c10_empty_filters_never_match :
    (∀ (u productCategory : String) (isCAP : Bool),
      shouldSendToSubscriber ⟨u, []⟩ productCategory isCAP = false) ∧
    (∀ filters : List String, normalizeFilters filters ≠ []) ∧
    (normalizeFilters [] = ["cap"]) ∧
    (loadStore (Json.obj [("KARX", Json.arr [Json.obj [("UserID", Json.str "u"),
        ("Filters", Json.arr [])]])]) = some [("KARX", [⟨"u", []⟩])]) ∧
    (∀ (s u cccc : String) (info : PInfo),
      deliverToSubscribers [(s, [⟨u, []⟩])] cccc info = []) := by
  refine ⟨?_, ?_, ?_, ?_, ?_⟩
  · intro u productCategory isCAP
    simp [shouldSendToSubscriber]
  · intro filters
    unfold normalizeFilters
    cases filters <;> simp
  · rfl
  · rfl
  · intro s u cccc info
    unfold deliverToSubscribers getStationSubscriptions
    by_cases h : s = goUpper cccc
    · simp [lookupA, h, shouldSendToSubscriber]
    · simp [lookupA, h]

/-- C1: a subscription matches a bulletin (and its user is sent the formatted
message) exactly when some filter token, compared case-insensitively via
lowercasing, equals `all`, or equals `cap` on a bulletin with a decoded CAP
alert, or equals the bulletin's derived product category; in particular a
`["cap"]` subscription matches exactly the alert-flagged bulletins for every
derivable category, and an `["all"]` subscription matches every bulletin. -/
theorem c1_filter_matching :
    (∀ (sub : Subscription) (productCategory : String) (isCAP : Bool),
      shouldSendToSubscriber sub productCategory isCAP = true ↔
        ∃ f ∈ sub.Filters, goLower f = "all" ∨ (goLower f = "cap" ∧ isCAP = true) ∨
          goLower f = goLower productCategory) ∧
    (∀ (u : String) (a : AWIPSProductID) (isCAP : Bool),
      shouldSendToSubscriber ⟨u, ["cap"]⟩ (getProductCategory a) isCAP = isCAP) ∧
    (∀ (u productCategory : String) (isCAP : Bool),
      shouldSendToSubscriber ⟨u, ["all"]⟩ productCategory isCAP = true) ∧
    (∀ (stationSubscribers : List (String × List Subscription)) (cccc uid : String)
        (info : PInfo),
      uid ∈ deliverToSubscribers stationSubscribers cccc info ↔
        ∃ sub ∈ getStationSubscriptions stationSubscribers cccc,
          sub.UserID = uid ∧
          shouldSendToSubscriber sub info.productCategory info.capAlert.isSome = true) := by
  refine ⟨?_, ?_, ?_, ?_⟩
  · intro sub productCategory isCAP
    unfold shouldSendToSubscriber
    rw [List.any_eq_true]
    constructor
    · rintro ⟨f, hf, hp⟩
      simp only [Bool.or_eq_true, Bool.and_eq_true, decide_eq_true_eq] at hp
      exact ⟨f, hf, by tauto⟩
    · rintro ⟨f, hf, hp⟩
      refine ⟨f, hf, ?_⟩
      simp only [Bool.or_eq_true, Bool.and_eq_true, decide_eq_true_eq]
      tauto
  · intro u a isCAP
    have hne := (getProductCategory_not_special a).1
    have hcap : goLower "cap" = "cap" := by decide
    simp only [shouldSendToSubscriber, List.any_cons, List.any_nil, Bool.or_false, hcap]
    have h1 : (decide (("cap" : String) = "all")) = false := by decide
    have h3 : (decide (("cap" : String) = goLower (getProductCategory a))) = false := by
      simp only [decide_eq_false_iff_not]
      intro h
      exact hne h.symm
    rw [h1, h3]
    simp
  · intro u productCategory isCAP
    have hall : goLower "all" = "all" := by decide
    simp [shouldSendToSubscriber, hall]
  · intro stationSubscribers cccc uid info
    unfold deliverToSubscribers
    simp only [List.mem_map, List.mem_filter]
    constructor
    · rintro ⟨sub, ⟨hmem, hsend⟩, rfl⟩
      exact ⟨sub, hmem, rfl, hsend⟩
    · rintro ⟨sub, hmem, rfl, hsend⟩
      exact ⟨sub, ⟨hmem, hsend⟩, rfl⟩

/-- C3 (amended): from any store state whose station map has distinct keys and
in which the user holds at most one entry for the station (the invariant every
subscribe-produced state satisfies), subscribing twice to the same
(user, station) pair leaves exactly one entry for the pair, carrying the second
call's filters in their stored normalized (lowercased, defaulted) form, and
`stationsFor` lists each station at most once. -/
theorem c3_resubscribe_replaces :
    ∀ (m : List (String × List Subscription)) (userID stationCode : String)
      (f1 f2 : List String),
      keysNodup m →
      countUser (getStationSubscriptions m stationCode) userID ≤ 1 →
      countUser (getStationSubscriptions
        (subscribeToStation (subscribeToStation m userID stationCode f1)
          userID stationCode f2) stationCode) userID = 1 ∧
      userFilters (getStationSubscriptions
        (subscribeToStation (subscribeToStation m userID stationCode f1)
          userID stationCode f2) stationCode) userID = some (normalizeFilters f2) ∧
      ∀ u station : String,
        ((getUserStationSubscriptions
          (subscribeToStation (subscribeToStation m userID stationCode f1)
            userID stationCode f2) u).count station) ≤ 1 := by
  intro m userID stationCode f1 f2 hnd hcount
  have hstep1 := getStation_subscribe_self m userID stationCode f1
  have hstep2 := getStation_subscribe_self
    (subscribeToStation m userID stationCode f1) userID stationCode f2
  have hc1 : countUser (getStationSubscriptions
      (subscribeToStation m userID stationCode f1) stationCode) userID = 1 := by
    rw [hstep1, countUser_append, countUser_removeUser hcount, countUser_cons]
    simp [countUser]
  have hzero : countUser (removeUser (getStationSubscriptions
      (subscribeToStation m userID stationCode f1) stationCode) userID) userID = 0 :=
    countUser_removeUser (le_of_eq hc1)
  refine ⟨?_, ?_, ?_⟩
  · rw [hstep2, countUser_append, hzero, countUser_cons]
    simp [countUser]
  · rw [hstep2]
    unfold userFilters
    rw [find?_append_of_none (find?_user_eq_none_of_count_zero hzero)]
    simp [List.find?_cons]
  · intro u station
    have hnd2 : keysNodup (subscribeToStation
        (subscribeToStation m userID stationCode f1) userID stationCode f2) := by
      unfold subscribeToStation
      exact keysNodup_setA _ _ _ (keysNodup_setA _ _ _ hnd)
    have hsub : List.Sublist
        (getUserStationSubscriptions (subscribeToStation
          (subscribeToStation m userID stationCode f1) userID stationCode f2) u)
        ((subscribeToStation
          (subscribeToStation m userID stationCode f1) userID stationCode f2).map
            Prod.fst) := by
      unfold getUserStationSubscriptions
      exact (List.filter_sublist _).map Prod.fst
    have hnodup : (getUserStationSubscriptions (subscribeToStation
        (subscribeToStation m userID stationCode f1) userID stationCode f2) u).Nodup :=
      List.Nodup.sublist hsub hnd2
    exact List.nodup_iff_count_le_one.1 hnodup station

/-- C3 counterexample: the claim quantifies over every store state, but a state
holding two entries for the same (user, station) pair — producible by `Load`
from a persisted file, as the first conjunct shows — still holds two entries
after subscribing twice, because each subscribe removes only the first match. -/
theorem c3_counterexample :
    loadStore (Json.obj [("KARX", Json.arr
      [Json.obj [("UserID", Json.str "u"), ("Filters", Json.arr [Json.str "a"])],
       Json.obj [("UserID", Json.str "u"), ("Filters", Json.arr [Json.str "b"])]])]) =
      some [("KARX", [⟨"u", ["a"]⟩, ⟨"u", ["b"]⟩])] ∧
    countUser (getStationSubscriptions
      (subscribeToStation
        (subscribeToStation [("KARX", [⟨"u", ["a"]⟩, ⟨"u", ["b"]⟩])] "u" "KARX" ["x"])
        "u" "KARX" ["y"]) "KARX") "u" = 2 := by
  exact ⟨rfl, by decide⟩

theorem c3_witness :
    countUser (getStationSubscriptions
      (subscribeToStation (subscribeToStation [] "u" "karx" ["ALL"]) "u" "karx"
        ["Cap", "Marine"]) "karx") "u" = 1 ∧
    userFilters (getStationSubscriptions
      (subscribeToStation (subscribeToStation [] "u" "karx" ["ALL"]) "u" "karx"
        ["Cap", "Marine"]) "karx") "u" = some ["cap", "marine"] ∧
    ((getUserStationSubscriptions
      (subscribeToStation (subscribeToStation [] "u" "karx" ["ALL"]) "u" "karx"
        ["Cap", "Marine"]) "u").count "KARX") ≤ 1 := by
  have h := c3_resubscribe_replaces [] "u" "karx" ["ALL"] ["Cap", "Marine"]
    (by simp [keysNodup]) (by decide)
  exact ⟨h.1, h.2.1, h.2.2 "u" "KARX"⟩

/-- C6 (amended): a malformed product code (trimmed AWIPS id shorter than 3) or
a malformed alert envelope never aborts the bulletin — it is still recorded
into recent history and dispatched with the best-effort identity (WMO data-type
name and `"Unknown"` category, or no alert); a malformed meteorological code,
however, drops the bulletin: nothing is recorded or dispatched, though the
process continues (the handler returns normally). -/
theorem c6_decode_failure_handling :
    (∀ (um : String → Except String Alert) (st : ClientState) (m0 : NMsg),
      parseTtaaii m0.ttaaii = none →
      (handleMessage um st m0).2 = [] ∧
      (handleMessage um st m0).1.recentMessages = st.recentMessages ∧
      (handleMessage um st m0).1.stationSubscribers = st.stationSubscribers) ∧
    (∀ (um : String → Except String Alert) (st : ClientState) (m0 : NMsg)
        (pid : WMOProductID),
      parseTtaaii m0.ttaaii = some pid → (goTrim m0.awipsID).length < 3 →
      ∃ info, parseProductInfo um (trimMsg m0) = some info ∧
        info.productName = getDataType pid ∧ info.productCategory = "Unknown" ∧
        (handleMessage um st m0).1.recentMessages =
          addRecentMessage st.recentMessages
            ⟨m0.cccc, buildDisplayName info, goTrim m0.awipsID, m0.issue, m0.text⟩ ∧
        (handleMessage um st m0).2 =
          deliverToSubscribers st.stationSubscribers m0.cccc info) ∧
    (∀ (um : String → Except String Alert) (e : String) (st : ClientState)
        (m0 : NMsg) (pid : WMOProductID),
      parseTtaaii m0.ttaaii = some pid → um (goTrim m0.text) = .error e →
      ∃ info, parseProductInfo um (trimMsg m0) = some info ∧ info.capAlert = none ∧
        (handleMessage um st m0).1.recentMessages =
          addRecentMessage st.recentMessages
            ⟨m0.cccc, buildDisplayName info, goTrim m0.awipsID, m0.issue, m0.text⟩ ∧
        (handleMessage um st m0).2 =
          deliverToSubscribers st.stationSubscribers m0.cccc info) := by
  refine ⟨?_, ?_, ?_⟩
  · intro um st m0 h
    have hp : parseProductInfo um (trimMsg m0) = none := parseProductInfo_eq_none h
    rw [handleMessage_eq_of_none hp]
    exact ⟨rfl, seqUpdate_recentMessages st m0.id, seqUpdate_stationSubscribers st m0.id⟩
  · intro um st m0 pid h hlen
    have ha : parseAwipsID (goTrim m0.awipsID) = none := by
      unfold parseAwipsID
      have hle := goTrim_length_le (goTrim m0.awipsID)
      rw [if_pos (by omega)]
    obtain ⟨info, hp, _, hname, hcat⟩ :=
      parseProductInfo_fallback um (trimMsg m0) h ha
    exact ⟨info, hp, hname, hcat,
      by rw [handleMessage_eq_of_some hp],
      by rw [handleMessage_eq_of_some hp]⟩
  · intro um e st m0 pid h hum
    obtain ⟨info, hp⟩ := parseProductInfo_isSome um (trimMsg m0) h
    have hnone := parseProductInfo_capAlert_none (trimMsg m0) hum hp
    exact ⟨info, hp, hnone,
      by rw [handleMessage_eq_of_some hp],
      by rw [handleMessage_eq_of_some hp]⟩

/-- C6 counterexample: a bulletin whose meteorological code is malformed
(`"SRUS8"`, length 5) is dropped by `handleMessage` — the recent history stays
empty and even an `["all"]` subscriber of the station receives nothing —
contradicting the claim that such a bulletin is still recorded and dispatched. -/
theorem c6_counterexample :
    (handleMessage (fun _ => Except.error "bad xml")
      ⟨[("KARX", [⟨"u1", ["all"]⟩])], [], []⟩
      ⟨"KARX", "SRUS8", "2013-05-25T02:20:34Z", "RR8ARX", "plain text", "10313.6"⟩).2
      = [] ∧
    getRecentMessages (handleMessage (fun _ => Except.error "bad xml")
      ⟨[("KARX", [⟨"u1", ["all"]⟩])], [], []⟩
      ⟨"KARX", "SRUS8", "2013-05-25T02:20:34Z", "RR8ARX", "plain text",
        "10313.6"⟩).1.recentMessages "KARX" = [] := by
  exact ⟨by decide, by decide⟩

theorem c6_witness :
    ∃ info, parseProductInfo (fun _ => Except.error "bad xml")
        (trimMsg ⟨"KARX", "SRUS83", "2013-05-25T02:20:34Z", "R8", "plain text",
          "10313.6"⟩) = some info ∧
      info.productName = getDataType ⟨"S", "R", "U", "S", "83"⟩ ∧
      info.productCategory = "Unknown" ∧
      (handleMessage (fun _ => Except.error "bad xml")
        ⟨[], [], []⟩
        ⟨"KARX", "SRUS83", "2013-05-25T02:20:34Z", "R8", "plain text",
          "10313.6"⟩).1.recentMessages =
        addRecentMessage ([] : List (String × List RecentMessage))
          ⟨"KARX", buildDisplayName info, goTrim "R8", "2013-05-25T02:20:34Z",
            "plain text"⟩ ∧
      (handleMessage (fun _ => Except.error "bad xml")
        ⟨[], [], []⟩
        ⟨"KARX", "SRUS83", "2013-05-25T02:20:34Z", "R8", "plain text",
          "10313.6"⟩).2 =
        deliverToSubscribers [] "KARX" info :=
  c6_decode_failure_handling.2.1 (fun _ => Except.error "bad xml")
    ⟨[], [], []⟩
    ⟨"KARX", "SRUS83", "2013-05-25T02:20:34Z", "R8", "plain text", "10313.6"⟩
    ⟨"S", "R", "U", "S", "83"⟩ (by decide) (by decide)

/-- C9: the alert decoder returns "not an alert" with no error whenever the
bulletin text does not contain the envelope opening marker; when the marker is
present but the envelope markup is malformed (the XML decoder errors), the
decoder returns that decode error, and the dispatcher treats the bulletin as
alert-absent rather than fatal: it is still recorded and dispatched through the
non-alert identity path. -/
theorem c9_cap_decoder_contract :
    (∀ (um : String → Except String Alert) (text : String),
      goContains text capMarker = false → parseCAP um text = .ok none) ∧
    (∀ (um : String → Except String Alert) (e : String) (st : ClientState)
        (m0 : NMsg) (pid : WMOProductID),
      parseTtaaii m0.ttaaii = some pid →
      goContains (goTrim m0.text) capMarker = true →
      um (goTrim m0.text) = .error e →
      parseCAP um m0.text = .error e ∧
      ∃ info, parseProductInfo um (trimMsg m0) = some info ∧ info.capAlert = none ∧
        (handleMessage um st m0).1.recentMessages =
          addRecentMessage st.recentMessages
            ⟨m0.cccc, buildDisplayName info, goTrim m0.awipsID, m0.issue, m0.text⟩ ∧
        (handleMessage um st m0).2 =
          deliverToSubscribers st.stationSubscribers m0.cccc info) := by
  constructor
  · intro um text h
    have hals : goContains (goTrim text) capMarker = false := by
      cases hc : goContains (goTrim text) capMarker
      · rfl
      · exact absurd (goContains_of_trim hc) (by simp [h])
    unfold parseCAP
    simp [hals]
  · intro um e st m0 pid h hc hum
    constructor
    · unfold parseCAP
      simp [hc, hum]
    · obtain ⟨info, hp⟩ := parseProductInfo_isSome um (trimMsg m0) h
      have hnone := parseProductInfo_capAlert_none (trimMsg m0) hum hp
      exact ⟨info, hp, hnone,
        by rw [handleMessage_eq_of_some hp],
        by rw [handleMessage_eq_of_some hp]⟩

theorem c9_witness :
    parseCAP (fun _ => Except.error "bad xml") "plain text" = .ok none ∧
    (parseCAP (fun _ => Except.error "bad xml") "x <alert> y" = .error "bad xml" ∧
      ∃ info, parseProductInfo (fun _ => Except.error "bad xml")
          (trimMsg ⟨"KARX", "SRUS83", "2013-05-25T02:20:34Z", "RR8ARX",
            "x <alert> y", "10313.6"⟩) = some info ∧
        info.capAlert = none ∧
        (handleMessage (fun _ => Except.error "bad xml") ⟨[], [], []⟩
          ⟨"KARX", "SRUS83", "2013-05-25T02:20:34Z", "RR8ARX", "x <alert> y",
            "10313.6"⟩).1.recentMessages =
          addRecentMessage ([] : List (String × List RecentMessage))
            ⟨"KARX", buildDisplayName info, goTrim "RR8ARX",
              "2013-05-25T02:20:34Z", "x <alert> y"⟩ ∧
        (handleMessage (fun _ => Except.error "bad xml") ⟨[], [], []⟩
          ⟨"KARX", "SRUS83", "2013-05-25T02:20:34Z", "RR8ARX", "x <alert> y",
            "10313.6"⟩).2 =
          deliverToSubscribers [] "KARX" info) :=
  ⟨c9_cap_decoder_contract.1 (fun _ => Except.error "bad xml") "plain text" (by decide),
   c9_cap_decoder_contract.2 (fun _ => Except.error "bad xml") "bad xml"
     ⟨[], [], []⟩
     ⟨"KARX", "SRUS83", "2013-05-25T02:20:34Z", "RR8ARX", "x <alert> y", "10313.6"⟩
     ⟨"S", "R", "U", "S", "83"⟩ (by decide) (by decide) rfl⟩

end NWWS
